import Mathlib

set_option linter.unusedVariables false

/- Shallow embedding of src/section3/out/src/inference_dcm.py.

   A pydicom Dataset is modeled as a record of the metadata fields the
   pipeline reads or writes, together with the decoded pixel plane.
   Python mutation is modeled by explicit state passing: a function that
   mutates an argument returns the updated value.  Python exceptions
   (IndexError on an empty list, ValueError from np.random.choice on an
   empty candidate list) are modeled by Option, with none for a raise. -/

/-- One DICOM slice record (a pydicom Dataset) restricted to the fields
the pipeline reads or writes.  pixelData is the PixelData payload viewed
through its decoded 2D plane of unsigned samples; clearing PixelData to
None is modeled by none. -/
structure Dataset where
  patientID : String
  studyDescription : String
  seriesDescription : String
  modality : String
  imageType : String
  seriesInstanceUID : String
  sopInstanceUID : String
  instanceNumber : Int
  pixelData : Option (List (List Nat))
deriving DecidableEq, Repr

/-- dcm.pixel_array: the decoded pixel plane of a record.  The records
the loader reads always carry pixel data; a cleared record decodes to
the empty plane. -/
def Dataset.pixel_array (dcm : Dataset) : List (List Nat) :=
  dcm.pixelData.getD []

/-- np.flip with no axis argument on a 2D array reverses the array along
both of its axes. -/
def npFlip2 (m : List (List Nat)) : List (List Nat) :=
  (m.map List.reverse).reverse

/-- The per-slice geometric normalization at line 40 of inference_dcm.py:
np.flip(dcm.pixel_array).T, i.e. flip along both in-plane axes and then
transpose rows and columns. -/
def sliceTransform (m : List (List Nat)) : List (List Nat) :=
  (npFlip2 m).transpose

/-- The sort key of line 40: ascending InstanceNumber.  Python sorted is
a stable sort; any stable sort produces the same output, so it is
modeled by the stable List.insertionSort over this relation. -/
def instanceLE (a b : Dataset) : Prop :=
  a.instanceNumber ≤ b.instanceNumber

instance : DecidableRel instanceLE :=
  fun a b => Int.decLe a.instanceNumber b.instanceNumber

instance : IsTotal Dataset instanceLE :=
  ⟨fun a b => Int.le_total a.instanceNumber b.instanceNumber⟩

instance : IsTrans Dataset instanceLE :=
  ⟨fun _ _ _ h1 h2 => le_trans h1 h2⟩

/-- load_dicom_volume_as_numpy_from_list (lines 29 to 46).  The slices
are the transformed planes of the records sorted by ascending
InstanceNumber; np.stack(slices, 2) makes the list position the axial
axis (axis 2), so the volume is modeled as that ordered list of planes.
dcmlist[0] raises IndexError on an empty list, modeled as none.  hdr
aliases dcmlist[0] and its PixelData is assigned None in place after the
pixel arrays have been read, so the function also returns the mutated
input list as explicit state: its head is the very header object that is
returned, its tail is untouched. -/
def load_dicom_volume_as_numpy_from_list (dcmlist : List Dataset) :
    Option (List (List (List Nat)) × Dataset × List Dataset) :=
  match dcmlist with
  | [] => none
  | d0 :: rest =>
    some (((d0 :: rest).insertionSort instanceLE).map
        (fun dcm => sliceTransform dcm.pixel_array),
      { d0 with pixelData := none },
      { d0 with pixelData := none } :: rest)

/-- The Volume component of load_dicom_volume_as_numpy_from_list. -/
def assembled (dcmlist : List Dataset) : Option (List (List (List Nat))) :=
  (load_dicom_volume_as_numpy_from_list dcmlist).map (fun t => t.1)

/-- The voxel counts returned by get_predicted_volumes. -/
structure VolumetricSummary where
  anterior : Nat
  posterior : Nat
  total : Nat
deriving DecidableEq, Repr

/-- The voxel list of a 3D label array; numpy elementwise comparisons
and np.sum range over exactly these voxels. -/
def voxels (v : List (List (List Nat))) : List Nat :=
  (v.map List.flatten).flatten

/-- get_predicted_volumes (lines 48 to 60): np.sum(pred == 1),
np.sum(pred == 2) and np.sum(pred > 0) over all voxels of the label
array. -/
def get_predicted_volumes (pred : List (List (List Nat))) : VolumetricSummary :=
  { anterior := (voxels pred).countP (fun x => x == 1)
  , posterior := (voxels pred).countP (fun x => x == 2)
  , total := (voxels pred).countP (fun x => decide (0 < x)) }

/-- np.max over a 2D plane of unsigned samples (0 on an empty plane). -/
def sliceMax (m : List (List Nat)) : Nat :=
  (m.map (fun r => r.foldr max 0)).foldr max 0

/-- The thumbnail normalization at lines 105 and 111 of create_report:
np.flip((s / np.max(s)) * 0xff).T.astype(np.uint8) applied to the first
plane s = vol[0].  When np.max(s) = 0 the division has no defined
numeric result (numpy produces NaN with a RuntimeWarning, and casting
NaN to uint8 is unspecified), modeled as none; otherwise the float scale
followed by the uint8 truncation is x * 255 / max in integers. -/
def normalize_first_slice (vol : List (List (List Nat))) : Option (List (List Nat)) :=
  if sliceMax (vol.headD []) = 0 then none
  else some (sliceTransform ((vol.headD []).map
    (fun r => r.map (fun x => x * 255 / sliceMax (vol.headD [])))))

/-- The report raster composed by create_report: a 1000 by 1000 RGB
canvas embedding two thumbnails.  Text drawing, font rasterization,
resizing and pasting are external image primitives, so the canvas
carries the two normalized thumbnails it embeds. -/
structure ReportImage where
  width : Nat
  height : Nat
  thumbOrig : List (List Nat)
  thumbPred : List (List Nat)
deriving DecidableEq, Repr

/-- create_report (lines 62 to 117): composes the fixed 1000 by 1000
canvas from the header text, the volumetric figures and the two
thumbnail normalizations of the first planes of orig_vol and pred_vol;
the normalizations are the only numeric computation, and an undefined
normalization makes the whole composition undefined. -/
def create_report (inference : VolumetricSummary) (header : Dataset)
    (orig_vol pred_vol : List (List (List Nat))) : Option ReportImage :=
  match normalize_first_slice orig_vol, normalize_first_slice pred_vol with
  | some a, some b =>
    some { width := 1000, height := 1000, thumbOrig := a, thumbPred := b }
  | _, _ => none

/-- The Secondary Capture object assembled by save_report_as_dcm before
it is handed to dcmwrite. -/
structure ScDataset where
  patientID : String
  studyDescription : String
  instanceNumber : Int
  transferSyntaxUID : String
  isLittleEndian : Bool
  isImplicitVR : Bool
  sopClassUID : String
  mediaStorageSOPClassUID : String
  seriesInstanceUID : String
  sopInstanceUID : String
  mediaStorageSOPInstanceUID : String
  modality : String
  seriesDescription : String
  rows : Nat
  columns : Nat
  imageType : String
  samplesPerPixel : Nat
  photometricInterpretation : String
  planarConfiguration : Nat
  bitsAllocated : Nat
  bitsStored : Nat
  highBit : Nat
  pixelRepresentation : Nat
  studyDate : String
  studyTime : String
  seriesDate : String
  seriesTime : String
  imagesInAcquisition : Nat
  windowCenter : String
  windowWidth : String
  burnedInAnnotation : String
  pixelData : ReportImage
deriving DecidableEq, Repr

/-- save_report_as_dcm (lines 119 to 183).  out = pydicom.Dataset(header)
copies the source header; patientID, studyDescription and instanceNumber
survive untouched while every other modeled field is then overwritten as
below.  pydicom.uid.generate_uid() draws a fresh globally unique UID at
each call; the two draws, the wall-clock date dt and the time tm are
nondeterministic inputs passed as arguments.  PixelData is assigned
report.tobytes(), the raw raster payload, modeled by the report value
itself since byte serialization of the canvas is an external image
primitive; the final dcmwrite call to path is external I/O. -/
def save_report_as_dcm (header : Dataset) (report : ReportImage)
    (newSeriesUID newSOPUID dt tm : String) : ScDataset :=
  { patientID := header.patientID
  , studyDescription := header.studyDescription
  , instanceNumber := header.instanceNumber
  , transferSyntaxUID := "1.2.840.10008.1.2.1"
  , isLittleEndian := true
  , isImplicitVR := false
  , sopClassUID := "1.2.840.10008.5.1.4.1.1.7"
  , mediaStorageSOPClassUID := "1.2.840.10008.5.1.4.1.1.7"
  , seriesInstanceUID := newSeriesUID
  , sopInstanceUID := newSOPUID
  , mediaStorageSOPInstanceUID := newSOPUID
  , modality := "OT"
  , seriesDescription := "HippoVolume.AI"
  , rows := report.height
  , columns := report.width
  , imageType := "DERIVED\\PRIMARY\\AXIAL"
  , samplesPerPixel := 3
  , photometricInterpretation := "RGB"
  , planarConfiguration := 0
  , bitsAllocated := 8
  , bitsStored := 8
  , highBit := 7
  , pixelRepresentation := 0
  , studyDate := dt
  , studyTime := tm
  , seriesDate := dt
  , seriesTime := tm
  , imagesInAcquisition := 1
  , windowCenter := ""
  , windowWidth := ""
  , burnedInAnnotation := "YES"
  , pixelData := report }

/-- get_series_for_inference (lines 186 to 206), with the filesystem
walk abstracted: candidates lists, per eligible directory (a directory
whose path contains HCropVolume), the slice records read from it, and
choice models the index drawn by np.random.choice.  np.random.choice on
an empty candidate list raises ValueError, modeled as none.  When the
set of distinct SeriesInstanceUID values of the chosen records has a
size other than one, the code prints an error message and returns the
empty list; otherwise it returns the records. -/
def get_series_for_inference (candidates : List (List Dataset)) (choice : Nat) :
    Option (List Dataset) :=
  match candidates with
  | [] => none
  | c :: cs =>
    if ((((c :: cs).getD (choice % (c :: cs).length) []).map
        (fun f => f.seriesInstanceUID)).dedup).length ≠ 1 then
      some []
    else
      some ((c :: cs).getD (choice % (c :: cs).length) [])

/- Helper lemmas shared by the volumetric theorems. -/

/-- Per-voxel split of the positivity indicator into the three class
indicators used by get_predicted_volumes. -/
theorem indicator_split_nat (a : Nat) :
    (if decide (0 < a) = true then 1 else 0) =
      ((if (a == 1) = true then 1 else 0) + (if (a == 2) = true then 1 else 0)) +
        (if decide (2 < a) = true then 1 else 0) := by
  match a with
  | 0 => rfl
  | 1 => rfl
  | 2 => rfl
  | (n + 3) =>
    have h1 : decide (0 < n + 3) = true := decide_eq_true (by omega)
    have h3 : decide (2 < n + 3) = true := decide_eq_true (by omega)
    have h2 : ((n + 3 : Nat) == 1) = false := by
      rw [beq_eq_false_iff_ne]
      omega
    have h4 : ((n + 3 : Nat) == 2) = false := by
      rw [beq_eq_false_iff_ne]
      omega
    rw [h1, h2, h3, h4]
    simp

/-- Counting positive voxels splits into the two named classes plus the
voxels above label 2. -/
theorem countP_pos_split (l : List Nat) :
    l.countP (fun x => decide (0 < x)) =
      (l.countP (fun x => x == 1) + l.countP (fun x => x == 2)) +
        l.countP (fun x => decide (2 < x)) := by
  induction l with
  | nil => rfl
  | cons a t ih =>
    simp only [List.countP_cons, ih, indicator_split_nat a]
    omega

/-- No voxel above label 2 is counted exactly when every voxel is at
most 2. -/
theorem countP_gt_two_eq_zero_iff (l : List Nat) :
    l.countP (fun x => decide (2 < x)) = 0 ↔ ∀ x ∈ l, x ≤ 2 := by
  rw [List.countP_eq_zero]
  constructor
  · intro h x hx
    have := h x hx
    simp only [decide_eq_true_eq] at this
    omega
  · intro h x hx
    simp only [decide_eq_true_eq]
    have := h x hx
    omega

/-- A stable sort is determined by the multiset of records once the sort
keys are pairwise distinct: any two permuted inputs with duplicate-free
InstanceNumber keys sort to the same list. -/
theorem insertionSort_eq_of_perm_of_nodup_key (l1 l2 : List Dataset)
    (hp : l1.Perm l2)
    (hnd : (l1.map (fun d => d.instanceNumber)).Nodup) :
    l1.insertionSort instanceLE = l2.insertionSort instanceLE := by
  have p1 := List.perm_insertionSort instanceLE l1
  have p2 := List.perm_insertionSort instanceLE l2
  have hp12 : (l1.insertionSort instanceLE).Perm (l2.insertionSort instanceLE) :=
    p1.trans (hp.trans p2.symm)
  have s1 := List.sorted_insertionSort instanceLE l1
  have s2 := List.sorted_insertionSort instanceLE l2
  have nd1 : ((l1.insertionSort instanceLE).map (fun d => d.instanceNumber)).Nodup :=
    ((p1.map (fun d => d.instanceNumber)).nodup_iff).mpr hnd
  have nd2 : ((l2.insertionSort instanceLE).map (fun d => d.instanceNumber)).Nodup := by
    refine ((p2.map (fun d => d.instanceNumber)).nodup_iff).mpr ?_
    exact ((hp.map (fun d => d.instanceNumber)).nodup_iff).mp hnd
  have strict : ∀ s : List Dataset,
      List.Sorted instanceLE s →
      (s.map (fun d => d.instanceNumber)).Nodup →
      List.Sorted (fun a b : Dataset => a.instanceNumber < b.instanceNumber) s := by
    intro s hs hnds
    have hne : List.Pairwise
        (fun a b : Dataset => a.instanceNumber ≠ b.instanceNumber) s :=
      List.pairwise_map.mp hnds
    exact (hs.and hne).imp (fun h => lt_of_le_of_ne h.1 h.2)
  haveI : IsAntisymm Dataset (fun a b : Dataset => a.instanceNumber < b.instanceNumber) :=
    ⟨fun a b h1 h2 => absurd h2 (not_lt.mpr (le_of_lt h1))⟩
  exact List.eq_of_perm_of_sorted hp12 (strict _ s1 nd1) (strict _ s2 nd2)

/-- Counting over the concatenation of n copies of a row. -/
theorem countP_flatten_replicate (p : Nat → Bool) (n : Nat) (r : List Nat) :
    ((List.replicate n r).flatten).countP p = n * r.countP p := by
  induction n with
  | zero => simp
  | succ k ih =>
    simp only [List.replicate_succ, List.flatten_cons, List.countP_append, ih]
    ring

/-- The first plane of the scenario label volume of the spec: a 64 by 64
plane holding exactly 500 voxels of label 1 and 300 voxels of label 2,
the rest 0. -/
def scenarioPlane0 : List (List Nat) :=
  List.replicate 7 (List.replicate 64 1) ++
  [List.replicate 52 1 ++ List.replicate 12 2] ++
  List.replicate 4 (List.replicate 64 2) ++
  [List.replicate 32 2 ++ List.replicate 32 0] ++
  List.replicate 51 (List.replicate 64 0)

/-- The scenario label volume of the spec: shape (10, 64, 64), 500
voxels of label 1, 300 voxels of label 2, all other voxels 0. -/
def scenarioVol : List (List (List Nat)) :=
  scenarioPlane0 :: List.replicate 9 (List.replicate 64 (List.replicate 64 0))

/-- Closed form for any per-voxel count over the scenario volume. -/
theorem countP_voxels_scenarioVol (p : Nat → Bool) :
    (voxels scenarioVol).countP p =
      500 * (if p 1 = true then 1 else 0) + 300 * (if p 2 = true then 1 else 0) +
        40160 * (if p 0 = true then 1 else 0) := by
  simp only [voxels, scenarioVol, scenarioPlane0, List.map_cons, List.map_replicate,
    List.map_append, List.flatten_cons, List.flatten_append, List.flatten_nil,
    List.countP_append, List.countP_replicate, countP_flatten_replicate,
    List.countP_nil, List.append_nil, List.map_nil]
  cases hp0 : p 0 <;> cases hp1 : p 1 <;> cases hp2 : p 2 <;> norm_num

/-- C6: for every label volume whose voxels are confined to labels 0, 1
and 2, the summary of get_predicted_volumes satisfies total equal to
anterior plus posterior; and the spec scenario, a (10, 64, 64) label
volume with exactly 500 voxels of label 1, 300 voxels of label 2 and the
rest 0, yields anterior 500, posterior 300, total 800. -/
theorem volumetric_summary_invariant_and_scenario :
    (∀ pred : List (List (List Nat)), (∀ x ∈ voxels pred, x ≤ 2) →
      (get_predicted_volumes pred).total =
        (get_predicted_volumes pred).anterior + (get_predicted_volumes pred).posterior) ∧
    get_predicted_volumes scenarioVol =
      { anterior := 500, posterior := 300, total := 800 } ∧
    scenarioVol.length = 10 ∧
    ∀ p ∈ scenarioVol, p.length = 64 ∧ ∀ r ∈ p, r.length = 64 := by
  refine ⟨?_, ?_, by decide, by decide⟩
  · intro pred hp
    have hz : (voxels pred).countP (fun x => decide (2 < x)) = 0 :=
      (countP_gt_two_eq_zero_iff (voxels pred)).mpr hp
    have hs := countP_pos_split (voxels pred)
    simp only [get_predicted_volumes]
    omega
  · have h1 := countP_voxels_scenarioVol (fun x => x == 1)
    have h2 := countP_voxels_scenarioVol (fun x => x == 2)
    have h3 := countP_voxels_scenarioVol (fun x => decide (0 < x))
    norm_num at h1 h2 h3
    simp only [get_predicted_volumes, h1, h2, h3]

/-- Witness for C6 at a concrete label volume confined to labels 0, 1, 2. -/
theorem volumetric_summary_invariant_witness :
    (∀ x ∈ voxels [[[0, 1, 2, 1]]], x ≤ 2) ∧
    (get_predicted_volumes [[[0, 1, 2, 1]]]).total =
      (get_predicted_volumes [[[0, 1, 2, 1]]]).anterior +
        (get_predicted_volumes [[[0, 1, 2, 1]]]).posterior :=
  ⟨by decide, volumetric_summary_invariant_and_scenario.1 [[[0, 1, 2, 1]]] (by decide)⟩

/-- C10: for every label volume over the natural numbers, anterior plus
posterior never exceeds total, with equality exactly when no voxel
carries a positive label outside the set of labels 1 and 2; voxels with
labels above 2 enter total but neither named class. -/
theorem volumetric_total_bound (pred : List (List (List Nat))) :
    (get_predicted_volumes pred).anterior + (get_predicted_volumes pred).posterior ≤
      (get_predicted_volumes pred).total ∧
    ((get_predicted_volumes pred).anterior + (get_predicted_volumes pred).posterior =
        (get_predicted_volumes pred).total ↔ ∀ x ∈ voxels pred, x ≤ 2) := by
  have hs := countP_pos_split (voxels pred)
  have hiff := countP_gt_two_eq_zero_iff (voxels pred)
  simp only [get_predicted_volumes]
  constructor
  · omega
  · rw [← hiff]
    omega

/-- C2: for every non-empty record list with a common in-plane shape,
the assembled Volume has axial extent equal to the number of input
records, and its planes are the transformed planes of the records
arranged in ascending InstanceNumber order, whatever the enumeration
order of the input. -/
theorem volume_axial_extent_and_order (d0 : Dataset) (rest : List Dataset)
    (w h : Nat)
    (hshape : ∀ d ∈ d0 :: rest, (Dataset.pixel_array d).length = h ∧
      ∀ r ∈ Dataset.pixel_array d, r.length = w) :
    ∃ vol hdr st, load_dicom_volume_as_numpy_from_list (d0 :: rest) = some (vol, hdr, st) ∧
      vol.length = (d0 :: rest).length ∧
      ∃ sl : List Dataset, sl.Perm (d0 :: rest) ∧
        List.Sorted (fun a b : Dataset => a.instanceNumber ≤ b.instanceNumber) sl ∧
        vol = sl.map (fun dcm => sliceTransform dcm.pixel_array) := by
  refine ⟨_, _, _, rfl, ?_, (d0 :: rest).insertionSort instanceLE,
    List.perm_insertionSort instanceLE (d0 :: rest), ?_, rfl⟩
  · rw [List.length_map, (List.perm_insertionSort instanceLE (d0 :: rest)).length_eq]
  · exact List.sorted_insertionSort instanceLE (d0 :: rest)

/-- Two records of one series with distinct instance indices, used to
instantiate the ordering theorem. -/
def wSliceA : Dataset :=
  { patientID := "PA0", studyDescription := "study", seriesDescription := "series",
    modality := "MR", imageType := "ORIGINAL", seriesInstanceUID := "1.22.333",
    sopInstanceUID := "1.22.333.5", instanceNumber := 5, pixelData := some [[3]] }

def wSliceB : Dataset :=
  { wSliceA with
    sopInstanceUID := "1.22.333.4", instanceNumber := 4,
    pixelData := some [[9]] }

/-- Witness for C2 at a concrete two-record input of common shape. -/
theorem volume_axial_extent_and_order_witness :
    (∀ d ∈ wSliceA :: [wSliceB], (Dataset.pixel_array d).length = 1 ∧
      ∀ r ∈ Dataset.pixel_array d, r.length = 1) ∧
    (∃ vol hdr st, load_dicom_volume_as_numpy_from_list (wSliceA :: [wSliceB]) =
        some (vol, hdr, st) ∧
      vol.length = (wSliceA :: [wSliceB]).length ∧
      ∃ sl : List Dataset, sl.Perm (wSliceA :: [wSliceB]) ∧
        List.Sorted (fun a b : Dataset => a.instanceNumber ≤ b.instanceNumber) sl ∧
        vol = sl.map (fun dcm => sliceTransform dcm.pixel_array)) :=
  ⟨by decide, volume_axial_extent_and_order wSliceA [wSliceB] 1 1 (by decide)⟩

/-- C9: the loader mutates its argument and nothing else: the returned
state list has the returned header as its very first entry, its tail is
the untouched remainder of the input, the header is the first input
record with only the pixel payload cleared, and the volume was computed
from the original records before the clearing. -/
theorem load_frame_effect (d0 : Dataset) (rest : List Dataset) :
    ∃ vol hdr st, load_dicom_volume_as_numpy_from_list (d0 :: rest) = some (vol, hdr, st) ∧
      st.head? = some hdr ∧
      st.tail = rest ∧
      hdr.pixelData = none ∧
      hdr.patientID = d0.patientID ∧
      hdr.studyDescription = d0.studyDescription ∧
      hdr.seriesDescription = d0.seriesDescription ∧
      hdr.modality = d0.modality ∧
      hdr.imageType = d0.imageType ∧
      hdr.seriesInstanceUID = d0.seriesInstanceUID ∧
      hdr.sopInstanceUID = d0.sopInstanceUID ∧
      hdr.instanceNumber = d0.instanceNumber ∧
      vol = ((d0 :: rest).insertionSort instanceLE).map
        (fun dcm => sliceTransform dcm.pixel_array) :=
  ⟨_, _, _, rfl, rfl, rfl, rfl, rfl, rfl, rfl, rfl, rfl, rfl, rfl, rfl, rfl⟩

/-- C5 amended: the Header returned by the volume loader is the first
record in input enumeration order, not in sort order, with the pixel
payload cleared. -/
theorem header_from_input_order (d0 : Dataset) (rest : List Dataset) :
    ∃ vol st, load_dicom_volume_as_numpy_from_list (d0 :: rest) =
      some (vol, { d0 with pixelData := none }, st) :=
  ⟨_, _, rfl⟩

/-- Two records of one series enumerated against their instance order,
separating input order from sort order. -/
def slice9 : Dataset :=
  { patientID := "P1", studyDescription := "St", seriesDescription := "Se",
    modality := "MR", imageType := "ORIGINAL", seriesInstanceUID := "1.2.3",
    sopInstanceUID := "1.2.3.9", instanceNumber := 9, pixelData := some [[3]] }

def slice1 : Dataset :=
  { slice9 with
    sopInstanceUID := "1.2.3.1", instanceNumber := 1,
    pixelData := some [[4]] }

/-- C5 counterexample: on the input [slice9, slice1] the record first in
ascending InstanceNumber sort order is slice1, yet the returned Header
is the cleared slice9, the first record in enumeration order, and the
two cleared records differ. -/
theorem header_not_sort_order_cex :
    ((load_dicom_volume_as_numpy_from_list [slice9, slice1]).map
      (fun t => t.2.1)) = some { slice9 with pixelData := none } ∧
    ([slice9, slice1].insertionSort instanceLE).head? = some slice1 ∧
    some ({ slice9 with pixelData := none } : Dataset) ≠
      some ({ slice1 with pixelData := none } : Dataset) := by
  decide

/-- C8 amended: two permuted record lists from one series whose
InstanceNumber keys are pairwise distinct assemble to identical
volumes; when keys are duplicated the stable sort preserves the two
differing input orders, so key distinctness is required. -/
theorem assembled_volume_perm_invariant (l1 l2 : List Dataset) (u : String)
    (hp : l1.Perm l2)
    (hser : ∀ d ∈ l1, d.seriesInstanceUID = u)
    (hnd : (l1.map (fun d => d.instanceNumber)).Nodup) :
    assembled l1 = assembled l2 := by
  have hms := insertionSort_eq_of_perm_of_nodup_key l1 l2 hp hnd
  rcases l1 with _ | ⟨a, t⟩
  · have h2 : l2 = [] := hp.symm.eq_nil
    subst h2
    rfl
  · rcases l2 with _ | ⟨b, t2⟩
    · exact absurd hp.eq_nil (by simp)
    · simp only [assembled, load_dicom_volume_as_numpy_from_list, Option.map_some]
      rw [hms]
      rfl

/-- Two records of one series with distinct instance indices and
distinct pixel planes, enumerated in both orders. -/
def wPermA : Dataset :=
  { patientID := "PB", studyDescription := "stu", seriesDescription := "ser",
    modality := "MR", imageType := "ORIGINAL", seriesInstanceUID := "9.8.7",
    sopInstanceUID := "9.8.7.1", instanceNumber := 1, pixelData := some [[5]] }

def wPermB : Dataset :=
  { wPermA with
    sopInstanceUID := "9.8.7.2", instanceNumber := 2, pixelData := some [[6]] }

/-- Witness for the amended C8 at a concrete transposed pair. -/
theorem assembled_volume_perm_invariant_witness :
    ([wPermA, wPermB].Perm [wPermB, wPermA]) ∧
    (∀ d ∈ [wPermA, wPermB], d.seriesInstanceUID = "9.8.7") ∧
    ([wPermA, wPermB].map (fun d => d.instanceNumber)).Nodup ∧
    assembled [wPermA, wPermB] = assembled [wPermB, wPermA] :=
  ⟨List.Perm.swap wPermB wPermA [], by decide, by decide,
    assembled_volume_perm_invariant [wPermA, wPermB] [wPermB, wPermA] "9.8.7"
      (List.Perm.swap wPermB wPermA []) (by decide) (by decide)⟩

/-- Two records of one series sharing InstanceNumber 1 but with
different pixel planes. -/
def tieA : Dataset :=
  { patientID := "PT", studyDescription := "stu", seriesDescription := "ser",
    modality := "MR", imageType := "ORIGINAL", seriesInstanceUID := "5.5.5",
    sopInstanceUID := "5.5.5.1", instanceNumber := 1, pixelData := some [[0]] }

def tieB : Dataset :=
  { tieA with sopInstanceUID := "5.5.5.2", pixelData := some [[7]] }

/-- C8 counterexample: two records of the same series share
InstanceNumber 1 and differ in pixel content; the two enumeration
orders are permutations of one another yet assemble to different
volumes, because the stable sort keeps tied records in input order. -/
theorem assembled_perm_tie_cex :
    tieA.seriesInstanceUID = tieB.seriesInstanceUID ∧
    ([tieA, tieB].Perm [tieB, tieA]) ∧
    assembled [tieA, tieB] ≠ assembled [tieB, tieA] :=
  ⟨rfl, List.Perm.swap tieB tieA [], by decide⟩

/-- C1 amended: when the chosen slice set holds more than one distinct
series identifier, get_series_for_inference prints an error and returns
the empty list as a normal value rather than raising a dedicated error,
and no Volume is produced because the volume loader fails on the empty
list. -/
theorem ambiguous_series_empty_return (candidates : List (List Dataset))
    (choice : Nat)
    (hne : candidates ≠ [])
    (hamb : 1 < (((candidates.getD (choice % candidates.length) []).map
        (fun f => f.seriesInstanceUID)).dedup).length) :
    get_series_for_inference candidates choice = some [] ∧
    load_dicom_volume_as_numpy_from_list [] = none := by
  rcases candidates with _ | ⟨c, cs⟩
  · exact absurd rfl hne
  · refine ⟨?_, rfl⟩
    simp only [get_series_for_inference]
    rw [if_pos (by omega)]

/-- Two records with distinct series identifiers, forming one ambiguous
candidate directory. -/
def mixA : Dataset :=
  { patientID := "PM", studyDescription := "stu", seriesDescription := "ser",
    modality := "MR", imageType := "ORIGINAL", seriesInstanceUID := "1.1.1",
    sopInstanceUID := "1.1.1.1", instanceNumber := 1, pixelData := some [[1]] }

def mixB : Dataset :=
  { mixA with
    seriesInstanceUID := "2.2.2", sopInstanceUID := "2.2.2.1",
    instanceNumber := 2, pixelData := some [[2]] }

/-- Witness for the amended C1 at a concrete two-series candidate set. -/
theorem ambiguous_series_empty_return_witness :
    (([[mixA, mixB]] : List (List Dataset)) ≠ []) ∧
    1 < (((([[mixA, mixB]] : List (List Dataset)).getD
        (0 % ([[mixA, mixB]] : List (List Dataset)).length) []).map
        (fun f => f.seriesInstanceUID)).dedup).length ∧
    (get_series_for_inference [[mixA, mixB]] 0 = some [] ∧
      load_dicom_volume_as_numpy_from_list [] = none) :=
  ⟨by decide, by decide,
    ambiguous_series_empty_return [[mixA, mixB]] 0 (by decide) (by decide)⟩

/-- C1 counterexample: on a chosen set carrying two distinct series
identifiers, get_series_for_inference returns normally with the empty
list rather than failing with a raised error; the loader then fails on
that empty list, so no Volume exists, but not through a
SeriesAmbiguityError. -/
theorem ambiguous_series_no_raise_cex :
    mixA.seriesInstanceUID ≠ mixB.seriesInstanceUID ∧
    get_series_for_inference [[mixA, mixB]] 0 = some [] ∧
    get_series_for_inference [[mixA, mixB]] 0 ≠ none ∧
    load_dicom_volume_as_numpy_from_list [] = none := by
  decide

/-- C7 counterexample: with zero eligible directories np.random.choice
receives an empty candidate list and raises ValueError, so the loader
fails instead of returning an empty result. -/
theorem empty_candidates_raise_cex :
    get_series_for_inference [] 0 = none ∧
    get_series_for_inference [] 0 ≠ some [] :=
  ⟨rfl, by decide⟩

/-- C7 amended: on an input with zero eligible series directories the
loader raises (ValueError from the empty random choice), modeled as
none, whatever index the random draw would have produced; the empty-list
return arises only in the ambiguous-series case. -/
theorem empty_candidates_raise (choice : Nat) :
    get_series_for_inference [] choice = none := rfl

/-- C3: the Secondary Capture object built by save_report_as_dcm fixes
the RGB pixel-encoding fields, takes its row and column extents from the
report image height and width, marks the burned-in annotation flag, and
carries exactly the freshly drawn series and instance identifiers, which
differ from those of the source header whenever the draws are fresh. -/
theorem save_report_fields (header : Dataset) (report : ReportImage)
    (newSeriesUID newSOPUID dt tm : String)
    (hs : newSeriesUID ≠ header.seriesInstanceUID)
    (hi : newSOPUID ≠ header.sopInstanceUID) :
    (save_report_as_dcm header report newSeriesUID newSOPUID dt tm).samplesPerPixel = 3 ∧
    (save_report_as_dcm header report newSeriesUID newSOPUID dt tm).photometricInterpretation = "RGB" ∧
    (save_report_as_dcm header report newSeriesUID newSOPUID dt tm).planarConfiguration = 0 ∧
    (save_report_as_dcm header report newSeriesUID newSOPUID dt tm).bitsAllocated = 8 ∧
    (save_report_as_dcm header report newSeriesUID newSOPUID dt tm).bitsStored = 8 ∧
    (save_report_as_dcm header report newSeriesUID newSOPUID dt tm).highBit = 7 ∧
    (save_report_as_dcm header report newSeriesUID newSOPUID dt tm).pixelRepresentation = 0 ∧
    (save_report_as_dcm header report newSeriesUID newSOPUID dt tm).rows = report.height ∧
    (save_report_as_dcm header report newSeriesUID newSOPUID dt tm).columns = report.width ∧
    ScDataset.burnedInAnnotation (save_report_as_dcm header report newSeriesUID newSOPUID dt tm) = "YES" ∧
    (save_report_as_dcm header report newSeriesUID newSOPUID dt tm).seriesInstanceUID = newSeriesUID ∧
    (save_report_as_dcm header report newSeriesUID newSOPUID dt tm).sopInstanceUID = newSOPUID ∧
    (save_report_as_dcm header report newSeriesUID newSOPUID dt tm).seriesInstanceUID ≠ header.seriesInstanceUID ∧
    (save_report_as_dcm header report newSeriesUID newSOPUID dt tm).sopInstanceUID ≠ header.sopInstanceUID :=
  ⟨rfl, rfl, rfl, rfl, rfl, rfl, rfl, rfl, rfl, rfl, rfl, rfl, hs, hi⟩

/-- A concrete source header and report canvas for the encoder witness. -/
def wHeader : Dataset :=
  { patientID := "PW", studyDescription := "stu", seriesDescription := "ser",
    modality := "MR", imageType := "ORIGINAL", seriesInstanceUID := "3.3.3",
    sopInstanceUID := "3.3.3.7", instanceNumber := 7, pixelData := some [[2]] }

def wReport : ReportImage :=
  { width := 1000, height := 1000, thumbOrig := [[0]], thumbPred := [[0]] }

/-- Witness for C3 at a concrete header, report and fresh draws. -/
theorem save_report_fields_witness :
    ("77.1" ≠ wHeader.seriesInstanceUID) ∧
    ("77.2" ≠ wHeader.sopInstanceUID) ∧
    ((save_report_as_dcm wHeader wReport "77.1" "77.2" "20261012" "101010").samplesPerPixel = 3 ∧
     (save_report_as_dcm wHeader wReport "77.1" "77.2" "20261012" "101010").photometricInterpretation = "RGB" ∧
     (save_report_as_dcm wHeader wReport "77.1" "77.2" "20261012" "101010").planarConfiguration = 0 ∧
     (save_report_as_dcm wHeader wReport "77.1" "77.2" "20261012" "101010").bitsAllocated = 8 ∧
     (save_report_as_dcm wHeader wReport "77.1" "77.2" "20261012" "101010").bitsStored = 8 ∧
     (save_report_as_dcm wHeader wReport "77.1" "77.2" "20261012" "101010").highBit = 7 ∧
     (save_report_as_dcm wHeader wReport "77.1" "77.2" "20261012" "101010").pixelRepresentation = 0 ∧
     (save_report_as_dcm wHeader wReport "77.1" "77.2" "20261012" "101010").rows = wReport.height ∧
     (save_report_as_dcm wHeader wReport "77.1" "77.2" "20261012" "101010").columns = wReport.width ∧
     ScDataset.burnedInAnnotation (save_report_as_dcm wHeader wReport "77.1" "77.2" "20261012" "101010") = "YES" ∧
     (save_report_as_dcm wHeader wReport "77.1" "77.2" "20261012" "101010").seriesInstanceUID = "77.1" ∧
     (save_report_as_dcm wHeader wReport "77.1" "77.2" "20261012" "101010").sopInstanceUID = "77.2" ∧
     (save_report_as_dcm wHeader wReport "77.1" "77.2" "20261012" "101010").seriesInstanceUID ≠ wHeader.seriesInstanceUID ∧
     (save_report_as_dcm wHeader wReport "77.1" "77.2" "20261012" "101010").sopInstanceUID ≠ wHeader.sopInstanceUID) :=
  ⟨by decide, by decide,
    save_report_fields wHeader wReport "77.1" "77.2" "20261012" "101010"
      (by decide) (by decide)⟩

/-- A volume whose first axial plane is uniformly zero. -/
def zeroFirstVol : List (List (List Nat)) :=
  [[[0, 0], [0, 0]], [[1, 1], [1, 1]]]

/-- A source header for the report composer at the degenerate input. -/
def c4Header : Dataset :=
  { patientID := "PZ", studyDescription := "stu", seriesDescription := "ser",
    modality := "MR", imageType := "ORIGINAL", seriesInstanceUID := "4.4.4",
    sopInstanceUID := "4.4.4.1", instanceNumber := 1, pixelData := some [[0]] }

/-- C4: the zero-max first plane is not guarded in create_report: the
thumbnail normalization divides by np.max = 0, which has no defined
numeric result, so the composition produces no defined report image at
this input instead of the claimed explicitly guarded blank thumbnail. -/
theorem create_report_zero_max_undefined :
    sliceMax (zeroFirstVol.headD []) = 0 ∧
    normalize_first_slice zeroFirstVol = none ∧
    create_report { anterior := 0, posterior := 0, total := 0 } c4Header
      zeroFirstVol zeroFirstVol = none := by
  decide
